import Mathlib

/-
Verification of the service-booking core of the Car-Selling repository
(`etop_backend`): vehicle eligibility, the booking state machine, creation
validation, the availability query, and the daily reminder sweep.

Conventions of the embedding:
* Dates are absolute day numbers (`Nat`); `today` is always passed explicitly
  where the source calls `timezone.now().date()`.  Times of day are minutes
  since midnight (`Nat`).
* Django `IntegerField` values are `Int`; nullable columns are `Option`.
* `status`, `service_type` and `priority` are the literal strings of the
  source `choices` lists, compared exactly as the source compares them.
* Raised exceptions are an explicit error component: a method that mutates
  `self` in place is embedded as `state → state × Option PyErr`, where the
  returned state is the object state when the call returns or raises.
* Purely presentational work (e-mail subject/body formatting, template
  rendering, logging) is not part of the state model; the external SMTP
  dispatch (`send_mail`) is an oracle argument where a claim depends on its
  outcome.
-/

namespace CarSelling

/-- Exception kinds raised by the embedded code.  `stateError` stands for the
Python `ValueError` raised on an illegal booking transition (the StateError of
the spec taxonomy), `validationError` for DRF `serializers.ValidationError`,
and `attributeError` for Python `AttributeError` (attribute lookup on an
object whose class does not define it). -/
inductive PyErr where
  | stateError
  | validationError
  | attributeError
  deriving DecidableEq, Repr

/-- Embedding of `CustomerVehicle` (models.py:684-874): the service-relevant
columns.  Identification and free-text columns that no claim reads
(`color`, `purchase_*`, `warranty_terms`, `additional_notes`, timestamps) are
carried as in the source where cheap and omitted where purely documentary. -/
structure CustomerVehicle where
  customer : String
  license_plate : String
  vin : String
  current_odometer : Int
  last_service_date : Option Nat := none
  last_service_odometer : Option Int := none
  last_service_type : String := ""
  has_warranty : Bool := false
  warranty_start_date : Option Nat := none
  warranty_end_date : Option Nat := none
  warranty_type : String := ""
  is_neta_car : Bool := false
  neta_battery_warranty_years : Int := 2
  neta_battery_warranty_km : Int := 50000
  is_eligible_for_10000km_service : Bool := false
  next_service_due_km : Option Int := none
  next_service_due_date : Option Nat := none
  deriving DecidableEq, Repr

namespace CustomerVehicle

/-- Source `CustomerVehicle.is_warranty_valid` (models.py:833-838):
`if not self.has_warranty or not self.warranty_end_date: return False`
then `return timezone.now().date() <= self.warranty_end_date`.
A `date` object is always truthy, so `not self.warranty_end_date` is exactly
the `None` test. -/
def is_warranty_valid (v : CustomerVehicle) (today : Nat) : Bool :=
  match v.has_warranty, v.warranty_end_date with
  | false, _ => false
  | true, none => false
  | true, some d => today ≤ d

/-- Source `CustomerVehicle.days_until_warranty_expires` (models.py:840-846):
`0` when the warranty is not valid, otherwise
`max(0, (warranty_end_date - today).days)`. -/
def days_until_warranty_expires (v : CustomerVehicle) (today : Nat) : Int :=
  if ¬ v.is_warranty_valid today then 0
  else
    match v.warranty_end_date with
    | none => 0
    | some d => max 0 ((d : Int) - (today : Int))

/-- Python truthiness of a nullable integer column: `None` and `0` are falsy. -/
def truthyInt : Option Int → Bool
  | none => false
  | some n => n ≠ 0

/-- Source `CustomerVehicle.needs_10000km_service` (models.py:848-865).  The three
guards use Python truthiness on the integer columns:
`if self.last_service_odometer and self.current_odometer: ...`,
`if self.next_service_due_km and self.current_odometer >= self.next_service_due_km: ...`,
`if self.next_service_due_date and today >= self.next_service_due_date: ...`
(a `date` is always truthy, an `int` is truthy iff nonzero). -/
def needs_10000km_service (v : CustomerVehicle) (today : Nat) : Bool :=
  if ¬ v.is_eligible_for_10000km_service then false
  else if truthyInt v.last_service_odometer ∧ truthyInt (some v.current_odometer) ∧
      v.current_odometer - (v.last_service_odometer.getD 0) ≥ 10000 then true
  else if truthyInt v.next_service_due_km ∧
      v.current_odometer ≥ v.next_service_due_km.getD 0 then true
  else
    match v.next_service_due_date with
    | some d => today ≥ d
    | none => false

/-- Source `CustomerVehicle.update_service_info` (models.py:867-874): the service
cascade applied after completion; sets the last-service columns and schedules
the next service 10000 km and 365 days ahead. -/
def update_service_info (v : CustomerVehicle) (service_type : String)
    (odometer_after_service : Int) (today : Nat) : CustomerVehicle :=
  { v with
    last_service_date := some today
    last_service_odometer := some odometer_after_service
    last_service_type := service_type
    next_service_due_km := some (odometer_after_service + 10000)
    next_service_due_date := some (today + 365) }

end CustomerVehicle

/-- Embedding of `ElectricCar` (models.py:57-341), the sales-catalog model
that `ServiceBooking.vehicle` actually references (models.py:925-929).  The
basic columns are carried; the remaining catalog columns (battery, range,
performance, charging, dimensions, pricing, imagery) are display data no
claim reads.  Decisive for the claims is what the class does NOT define:
no `current_odometer`, no warranty columns, no `is_neta_car`, no
service-due columns, and no `update_service_info` method — those live only
on `CustomerVehicle`. -/
structure ElectricCar where
  model_name : String
  variant : String := ""
  model_year : Nat
  category : String
  status : String := "available"
  featured : Bool := false
  deriving DecidableEq, Repr

/-- Embedding of `ServiceBooking` (models.py:877-1405).  `id` is the Django
primary key.  `vehicle` is the `ElectricCar` foreign key of models.py:925-929.
Field defaults are the model-field defaults (`status='pending'`,
`priority='normal'`, `warranty_covered=False`, notification flags `False`).
JSON/decimal payload columns (`parts_used`, `total_cost`) are carried as a
string list and an optional integer amount; no claim reads their values. -/
structure Booking where
  id : Nat
  booking_number : String
  customer : String
  vehicle : ElectricCar
  service_type : String := "routine_maintenance"
  service_type_custom : String := ""
  preferred_date : Nat
  preferred_time_slot : Nat
  alternative_dates : List String := []
  odometer_reading : Int
  service_description : String := ""
  symptoms_problems : String := ""
  priority : String := "normal"
  status : String := "pending"
  scheduled_date : Option Nat := none
  scheduled_time : Option Nat := none
  scheduled_by : Option String := none
  scheduled_at : Option Nat := none
  assigned_technician : Option String := none
  service_center : Option String := none
  completed_at : Option Nat := none
  completed_by : Option String := none
  final_odometer : Option Int := none
  service_report : String := ""
  parts_used : List String := []
  total_cost : Option Int := none
  warranty_covered : Bool := false
  warranty_claim_number : String := ""
  customer_notes : String := ""
  internal_notes : String := ""
  confirmation_sent : Bool := false
  reminder_sent : Bool := false
  follow_up_sent : Bool := false
  deriving DecidableEq, Repr

namespace Booking

/-- Source `ServiceBooking.can_be_scheduled` (models.py:1115-1118):
`self.status in ['pending', 'confirmed', 'rescheduled']`. -/
def can_be_scheduled (b : Booking) : Bool :=
  ["pending", "confirmed", "rescheduled"].contains b.status

/-- Source `ServiceBooking.is_scheduled` (models.py:1120-1123):
`self.scheduled_date is not None and self.scheduled_time is not None`. -/
def is_scheduled (b : Booking) : Bool :=
  b.scheduled_date.isSome && b.scheduled_time.isSome

/-- Effective `ServiceBooking.save` (models.py:1384-1405).  The class body
defines `save` twice; this second definition rebinds the name, so it is the
one Python calls.  `super().save()` (models.py:1393) persists the object
as-is — it never calls `_check_neta_warranty_eligibility` or
`_check_10000km_eligibility`, which are reached only from the shadowed first
`save` (models.py:1067-1083).  The e-mail steps that follow the persist,
however, escape: each of `send_booking_received_email` (models.py:1309,
called at 1397 for a new pending row), the effective
`send_schedule_confirmation` (models.py:1260, called at 1401 when the status
became `scheduled`) and `send_service_completion_email` (models.py:1347,
called at 1405 when it became `completed`) builds its context dict with
`self.get_customer_full_name()` (models.py:1315 / 1270 / 1353) before its
`try` block, and `get_customer_full_name` (models.py:1250-1254) reads
`self.customer.first_name` on the `customer` CharField (models.py:920) — an
`AttributeError` that propagates out of `save()`.  The pair returned is the
persisted row together with the raise, if any, escaping the call. -/
def save_effective (is_new : Bool) (old_status : Option String) (b : Booking) :
    Booking × Option PyErr :=
  if is_new ∧ b.status = "pending" then (b, some .attributeError)
  else if ¬ is_new ∧ old_status ≠ some "scheduled" ∧ b.status = "scheduled" then
    (b, some .attributeError)
  else if ¬ is_new ∧ old_status ≠ some "completed" ∧ b.status = "completed" then
    (b, some .attributeError)
  else (b, none)

/-- Source `ServiceBooking.schedule_service` (models.py:1140-1157).  The guard is the
first statement, so on an ineligible status the `ValueError` is raised before
any assignment and the object is returned unchanged.  On an eligible status
the schedule fields and `status='scheduled'` are set (with `service_center`
only when given) and `self.save()` runs: the save persists the transition and
then raises `AttributeError` from the schedule-confirmation e-mail (see
`save_effective`), so the call never returns normally — the raise surfaces
after the row is durably `scheduled`, and the explicit
`send_schedule_confirmation` call at models.py:1157 is never reached. -/
def schedule_service (b : Booking) (date : Nat) (time : Nat)
    (scheduledBy : String) (serviceCenter : Option String) (now : Nat) :
    Booking × Option PyErr :=
  if ¬ b.can_be_scheduled then (b, some .stateError)
  else
    let b1 := { b with
      scheduled_date := some date
      scheduled_time := some time
      scheduled_by := some scheduledBy
      scheduled_at := some now
      status := "scheduled" }
    let b1 := match serviceCenter with
      | some sc => { b1 with service_center := some sc }
      | none => b1
    save_effective false (some b.status) b1

/-- Source `ServiceBooking.complete_service` (models.py:1195-1220).  After the status
guard the completion fields are assigned on the in-memory object; the cascade
step `self.vehicle.update_service_info(service_type, final_odometer)`
(models.py:1215) then resolves `update_service_info` on the `ElectricCar`
instance referenced by the `vehicle` foreign key (models.py:925-929).
`ElectricCar` (models.py:57-341) defines no such attribute, so Python raises
`AttributeError` there — before `self.save()` (models.py:1217) ever runs, so
neither the booking completion nor any vehicle change is persisted. -/
def complete_service (b : Booking) (technician : String) (final_odometer : Int)
    (report : String) (partsUsed : Option (List String) := none)
    (totalCost : Option Int := none) (now : Nat := 0) :
    Booking × Option PyErr :=
  if ¬ (["scheduled", "in_progress"].contains b.status) then (b, some .stateError)
  else
    let b := { b with
      assigned_technician := some technician
      final_odometer := some final_odometer
      service_report := report
      completed_at := some now
      completed_by := some technician
      status := "completed" }
    let b := match partsUsed with
      | some ps => { b with parts_used := ps }
      | none => b
    let b := match totalCost with
      | some c => { b with total_cost := some c }
      | none => b
    (b, some .attributeError)

/-- Source `ServiceBooking._check_neta_warranty_eligibility` (models.py:1085-1093),
evaluated over a `CustomerVehicle` snapshot: sets
`warranty_covered = is_neta_car and is_warranty_valid and days_until_warranty_expires > 0`
and, when covered, forces `priority = 'warranty'`.  (In the source the
receiver of those three reads is the `ElectricCar` foreign key, which defines
none of them; the snapshot parameter is the `CustomerVehicle` the method body
is written against.) -/
def check_neta_warranty_eligibility (b : Booking) (v : CustomerVehicle)
    (today : Nat) : Booking :=
  let covered := v.is_neta_car && v.is_warranty_valid today &&
    decide (v.days_until_warranty_expires today > 0)
  let b := { b with warranty_covered := covered }
  if covered then { b with priority := "warranty" } else b

/-- Creation of a booking row as the serializers do it
(`ServiceBooking.objects.create(...)`): field defaults (`status='pending'`,
`priority='normal'`, `warranty_covered=False`) plus the caller-supplied
request fields, persisted through the effective `save`.  The function yields
the persisted row (the first component of the save); the save call itself
then raises `AttributeError` from the booking-received e-mail
(models.py:1396-1397, context built at 1315), after the row is durable. -/
def create_booking (id : Nat) (bookingNumber : String) (customer : String)
    (vehicle : ElectricCar) (serviceType : String) (preferredDate : Nat)
    (preferredTime : Nat) (odometerReading : Int) : Booking :=
  (save_effective true none
    { id := id
      booking_number := bookingNumber
      customer := customer
      vehicle := vehicle
      service_type := serviceType
      preferred_date := preferredDate
      preferred_time_slot := preferredTime
      odometer_reading := odometerReading }).1

/-- Source `ServiceBookingViewSet.cancel` (views.py:813-825): bookings whose status
is outside `['pending', 'confirmed', 'scheduled']` are rejected with an HTTP
400 and left unchanged; otherwise only `status` is set to `'cancelled'` —
the schedule fields are not cleared — and the row is saved.  The save raises
no e-mail error here: none of its three e-mail conditions match a transition
to `cancelled`. -/
def cancel (b : Booking) : Booking × Option PyErr :=
  if ¬ (["pending", "confirmed", "scheduled"].contains b.status) then
    (b, some .stateError)
  else save_effective false (some b.status) { b with status := "cancelled" }

end Booking

/-- Incoming create-request payload as the booking serializers read it with
`data.get(...)`: absent keys are `none`.  The customer contact fields
(`full_name`, `email`, `phone`) are write-only strings no validation rule
reads, and are omitted. -/
structure BookingRequest where
  vehicle : Option Nat := none
  service_type : Option String := none
  preferred_date : Option Nat := none
  preferred_time_slot : Option Nat := none
  odometer_reading : Option Int := none
  alternative_dates : List String := []
  deriving DecidableEq, Repr

/-- Python truthiness of a nullable string: `None` and `''` are falsy. -/
def truthyStr : Option String → Bool
  | none => false
  | some s => s ≠ ""

/-- Source `PublicServiceBookingSerializer.validate` (serializers.py:822-865), the
validation of the unauthenticated creation path.  `parsesYmd` is the oracle
for `datetime.strptime(date_str, %Y-%m-%d)` succeeding on an
alternative-date string.  Checks in source order: vehicle present,
service type truthy, odometer truthy when the type is `10000km_service`,
preferred date not in the past, alternative-date strings well formed.
A raised `serializers.ValidationError` aborts creation, so nothing is
persisted on the error branch. -/
def public_booking_validate (parsesYmd : String → Bool) (req : BookingRequest)
    (today : Nat) : Except PyErr BookingRequest :=
  if req.vehicle = none then .error .validationError
  else if ¬ truthyStr req.service_type then .error .validationError
  else if req.service_type = some "10000km_service" ∧
      ¬ CustomerVehicle.truthyInt req.odometer_reading then .error .validationError
  else if (match req.preferred_date with
      | some d => decide (d < today)
      | none => false : Bool) then .error .validationError
  else if ¬ req.alternative_dates.all parsesYmd then .error .validationError
  else .ok req

/-- Source `ServiceBookingCreateSerializer.validate` (serializers.py:773-777), the
validation of the authenticated creation path
(`ServiceBookingViewSet.get_serializer_class` routes the `create` action
here, views.py:789-792).  The only check is that a vehicle was supplied;
in particular `preferred_date` is never compared against today. -/
def create_booking_validate (req : BookingRequest) : Except PyErr BookingRequest :=
  if req.vehicle = none then .error .validationError
  else .ok req

/-- Business window of `ServiceAvailabilityView.get` (views.py:894-899):
`for hour in range(9, 17)`, one-hour slots starting 09:00 .. 16:00 inside the
09:00-17:00 window. -/
def business_hours : List Nat := List.range' 9 8

/-- One hour slot of the availability view is taken on date `d` when some
booking has `scheduled_date = d`, an active status and exactly that
`scheduled_time` (views.py:888-892, 898): the `booked_slots` list holds the
`scheduled_time` values of bookings with
`status in ['confirmed', 'scheduled', 'in_progress']` on `d`. -/
def slot_booked (bookings : List Booking) (d : Nat) (hour : Nat) : Bool :=
  bookings.any fun b =>
    b.scheduled_date = some d &&
    ["confirmed", "scheduled", "in_progress"].contains b.status &&
    b.scheduled_time = some (60 * hour)

/-- Source `ServiceAvailabilityView.get` (views.py:859-904) for a well-formed date
`d`: a past date answers an empty slot list (views.py:881-886); otherwise the
hours of the business window whose slot time is not among the booked slots. -/
def service_availability (bookings : List Booking) (d : Nat) (today : Nat) :
    List Nat :=
  if d < today then []
  else business_hours.filter fun hour => ¬ slot_booked bookings d hour

/-- Modelled from the spec: the `ScheduleService` model class (the spec
ScheduleBatch, spec.md section 3) is imported by signals.py:7 and
admin.py:12 but its declaration is not among the provided sources.  Per the
spec it is a named set of Bookings plus one target `scheduled_date`,
`scheduled_time`, `service_center` and the creating staff member; `bookings`
holds the member booking ids (the m2m column the sweep iterates). -/
structure ScheduleService where
  scheduled_date : Nat
  scheduled_time : Nat
  service_center : Option String := none
  scheduled_by : Option String := none
  bookings : List Nat := []
  deriving DecidableEq, Repr

/-- Source `send_today_service_plain_email` (signals.py:382-447).  The message body
is presentational formatting; the external SMTP dispatch (`send_mail`,
signals.py:438-444) is the `dispatch` oracle.  The message body is built
first (signals.py:405-435) and reads `booking.vehicle.manufacturer_name`
(signals.py:416); the `vehicle` foreign key is an `ElectricCar`
(models.py:925-929), which defines no `manufacturer_name` attribute
(models.py:57-341), so the helper raises `AttributeError` while formatting
the message, before its `try` (signals.py:437) — the dispatch oracle and the
failure-swallowing except handler (signals.py:446-447) are unreachable, and
the helper never returns normally. -/
def send_today_service_plain_email (dispatch : Nat → Except String Unit)
    (b : Booking) : Except PyErr Unit :=
  .error .attributeError

/-- Source `send_tomorrow_service_plain_email` (signals.py:449-510): same shape; its
message body reads `booking.vehicle.manufacturer_name` at signals.py:480,
raising `AttributeError` before the `try` around the dispatch
(signals.py:500-510), so this helper never returns normally either. -/
def send_tomorrow_service_plain_email (dispatch : Nat → Except String Unit)
    (b : Booking) : Except PyErr Unit :=
  .error .attributeError

/-- Source `booking.reminder_sent = True; booking.save(update_fields=[...])`
(signals.py:538-539) applied to the row with primary key `i`. -/
def mark_reminder_sent (bs : List Booking) (i : Nat) : List Booking :=
  bs.map fun b => if b.id = i then { b with reminder_sent := true } else b

/-- Source `booking.follow_up_sent = True; booking.save(update_fields=[...])`
(signals.py:551-552) applied to the row with primary key `i`. -/
def mark_follow_up_sent (bs : List Booking) (i : Nat) : List Booking :=
  bs.map fun b => if b.id = i then { b with follow_up_sent := true } else b

/-- Row lookup by primary key. -/
def find_booking (bs : List Booking) (i : Nat) : Option Booking :=
  bs.find? fun b => b.id = i

/-- Body of the today loop of `send_daily_service_reminders`
(signals.py:533-542) for one member booking id: when the booking exists,
`reminder_sent` is false and the status is `'scheduled'`, the loop invokes
the today e-mail helper inside its `try`; on a normal helper return the
guard flag would be set and saved (signals.py:538-539), but when the helper
raises, the `except` (signals.py:541-542) only logs and the flag assignment
is skipped.  The second component of the state records the ids for which the
loop attempted a send (invoked the helper), whatever the outcome. -/
def today_step (dispatch : Nat → Except String Unit)
    (st : List Booking × List Nat) (i : Nat) : List Booking × List Nat :=
  match find_booking st.1 i with
  | none => st
  | some b =>
    if b.reminder_sent = false && b.status = "scheduled" then
      match send_today_service_plain_email dispatch b with
      | .ok _ => (mark_reminder_sent st.1 i, st.2 ++ [i])
      | .error _ => (st.1, st.2 ++ [i])
    else st

/-- Body of the tomorrow loop of `send_daily_service_reminders`
(signals.py:546-555), guarded by `follow_up_sent`; the flag assignment
(signals.py:551-552) is skipped when the helper raises into the `except`
(signals.py:554-555). -/
def tomorrow_step (dispatch : Nat → Except String Unit)
    (st : List Booking × List Nat) (i : Nat) : List Booking × List Nat :=
  match find_booking st.1 i with
  | none => st
  | some b =>
    if b.follow_up_sent = false && b.status = "scheduled" then
      match send_tomorrow_service_plain_email dispatch b with
      | .ok _ => (mark_follow_up_sent st.1 i, st.2 ++ [i])
      | .error _ => (st.1, st.2 ++ [i])
    else st

/-- Nested today loop of `send_daily_service_reminders` (signals.py:531-542):
for each schedule of the given list, for each member booking id, run
`today_step`. -/
def today_pass (dispatch : Nat → Except String Unit)
    (schedules : List ScheduleService) (st : List Booking × List Nat) :
    List Booking × List Nat :=
  schedules.foldl (fun st s => s.bookings.foldl (today_step dispatch) st) st

/-- Nested tomorrow loop of `send_daily_service_reminders`
(signals.py:544-555). -/
def tomorrow_pass (dispatch : Nat → Except String Unit)
    (schedules : List ScheduleService) (st : List Booking × List Nat) :
    List Booking × List Nat :=
  schedules.foldl (fun st s => s.bookings.foldl (tomorrow_step dispatch) st) st

/-- Source `send_daily_service_reminders` (signals.py:513-592).  Both passes iterate
the schedules matching the target date and, inside, their member bookings.
The trailing individual-booking fallback (signals.py:559-589) filters the
queryset on `is_scheduled`, which is a property (models.py:1120-1123) and
not a database column, so the ORM raises `FieldError` there; the outer
handler (signals.py:591-592) catches and logs it, and the function returns
with no further state change.  Result: final booking rows, ids attempted for
a today reminder, ids attempted for a tomorrow reminder. -/
def send_daily_service_reminders (dispatch : Nat → Except String Unit)
    (schedules : List ScheduleService) (bookings : List Booking)
    (today : Nat) : List Booking × List Nat × List Nat :=
  let todaySchedules := schedules.filter fun s => s.scheduled_date = today
  let tomorrowSchedules := schedules.filter fun s => s.scheduled_date = today + 1
  let st1 := today_pass dispatch todaySchedules (bookings, [])
  let st2 := tomorrow_pass dispatch tomorrowSchedules (st1.1, [])
  (st2.1, st1.2, st2.2)

/-- Booking-table state after one cron invocation of
`send_daily_service_reminders` on day `today`. -/
def sweep_state (dispatch : Nat → Except String Unit)
    (schedules : List ScheduleService) (today : Nat)
    (bookings : List Booking) : List Booking :=
  (send_daily_service_reminders dispatch schedules bookings today).1

/-- Claim-side reading of `needs10000kmService` in the words of the spec
(spec.md sections 4.1 and 8): for an eligible vehicle, true iff
(a) `last_service_odometer` is set and `current_odometer − last ≥ 10000`, or
(b) `next_service_due_km` is set and `current_odometer ≥ next`, or
(c) `next_service_due_date` is set and `now ≥ due date`.  Kept separate from
the source embedding `needs_10000km_service` so the two can be compared. -/
def needs_10000km_service_claimed (v : CustomerVehicle) (today : Nat) : Bool :=
  v.is_eligible_for_10000km_service &&
  ((v.last_service_odometer.isSome &&
      decide (v.current_odometer - v.last_service_odometer.getD 0 ≥ 10000)) ||
   (v.next_service_due_km.isSome &&
      decide (v.current_odometer ≥ v.next_service_due_km.getD 0)) ||
   (v.next_service_due_date.isSome &&
      decide (today ≥ v.next_service_due_date.getD 0)))

/-- Concrete catalog car used by the witness bookings. -/
def carX : ElectricCar :=
  { model_name := "V9", variant := "Long Range", model_year := 2024,
    category := "suv" }

/-- Concrete pending booking (all lifecycle fields at their defaults). -/
def bkPending : Booking :=
  { id := 1, booking_number := "SRV20240617A1B2C3", customer := "Abel Bekele",
    vehicle := carX, preferred_date := 100, preferred_time_slot := 540,
    odometer_reading := 12000 }

/-- Concrete completed booking. -/
def bkCompleted : Booking :=
  { bkPending with id := 2, status := "completed" }

/-- Concrete scheduled booking awaiting completion; its vehicle had
`current_odometer = 14000` on the `CustomerVehicle` side (`cvC3`). -/
def bkC3 : Booking :=
  { bkPending with
    id := 3
    status := "scheduled"
    service_type := "10000km_service"
    scheduled_date := some 100
    scheduled_time := some 600 }

/-- Concrete `CustomerVehicle` for the completion cascade scenario:
`current_odometer = 14000` before the service. -/
def cvC3 : CustomerVehicle :=
  { customer := "Abel Bekele", license_plate := "AA-12345",
    vin := "LNBSCU3F0NW000001", current_odometer := 14000,
    is_eligible_for_10000km_service := true }

/-- Booking reached by scheduling the pending booking and then cancelling it
through the cancel endpoint. -/
def bkC4_sched : Booking :=
  (Booking.schedule_service bkPending 101 600 "staff" (some "Bole center") 50).1

/-- Cancelled-after-scheduling booking. -/
def bkC4_cancelled : Booking :=
  (Booking.cancel bkC4_sched).1

/-- Create request whose `preferred_date` (day 5) is before today (day 10),
with a vehicle and all other payload present. -/
def reqC5 : BookingRequest :=
  { vehicle := some 1, service_type := some "routine_maintenance",
    preferred_date := some 5, preferred_time_slot := some 540,
    odometer_reading := some 100 }

/-- Concrete NETA vehicle with a warranty valid for 10 more days when
`today = 100`. -/
def cvC2 : CustomerVehicle :=
  { customer := "Abel Bekele", license_plate := "AA-12345",
    vin := "LNBSCU3F0NW000001", current_odometer := 9000,
    has_warranty := true, warranty_start_date := some 0,
    warranty_end_date := some 110, warranty_type := "NETA battery",
    is_neta_car := true }

/-- Booking created through the serializers for the NETA warranty scenario:
`ServiceBooking.objects.create(service_type='neta_warranty', ...)` followed
by the effective `save`. -/
def bkC2 : Booking :=
  Booking.create_booking 7 "SRV20240617D4E5F6" "Abel Bekele" carX
    "neta_warranty" 100 540 9000

/-- Eligible vehicle with `last_service_odometer = 0`: the zero is a set
column value but falsy in Python. -/
def vC7 : CustomerVehicle :=
  { customer := "Sara T", license_plate := "AA-99999",
    vin := "LNBSCU3F0NW000002", current_odometer := 15000,
    last_service_odometer := some 0,
    is_eligible_for_10000km_service := true }

/-- One scheduled booking claiming the 10:00 slot of day 200. -/
def bkC9 : Booking :=
  { bkPending with
    id := 9
    status := "scheduled"
    scheduled_date := some 200
    scheduled_time := some 600 }

/-- Schedule batch for day 100 containing booking 21. -/
def schedC8 : ScheduleService :=
  { scheduled_date := 100, scheduled_time := 540, bookings := [21] }

/-- Scheduled member booking of `schedC8`, reminder flags still clear. -/
def bkC8 : Booking :=
  { bkPending with id := 21, status := "scheduled" }

/-- Dispatcher oracle on which every SMTP send fails. -/
def failing_dispatch : Nat → Except String Unit :=
  fun _ => .error "SMTPException"

theorem save_effective_fst (is_new : Bool) (old_status : Option String)
    (b : Booking) : (Booking.save_effective is_new old_status b).1 = b := by
  unfold Booking.save_effective
  split
  · rfl
  · split
    · rfl
    · split
      · rfl
      · rfl

/-- C6: for every VehicleRecord `v` and current time `now`,
`warrantyValid(v, now)` returns true if and only if `v.has_warranty` is true
and `now ≤ v.warranty_end_date` (which requires the end date to be set). -/
theorem C6_warranty_valid_iff (v : CustomerVehicle) (today : Nat) :
    v.is_warranty_valid today = true ↔
      (v.has_warranty = true ∧
        ∃ d, v.warranty_end_date = some d ∧ today ≤ d) := by
  cases hw : v.has_warranty <;> cases hd : v.warranty_end_date <;>
    simp [CustomerVehicle.is_warranty_valid, hw, hd]

/-- C7 counterexample: `vC7` is eligible, has `last_service_odometer` set
to `0` and `current_odometer = 15000`, so the claimed condition (a) holds
(`15000 − 0 ≥ 10000`), yet the source returns false because the Python guard
`if self.last_service_odometer and self.current_odometer` treats the set
value `0` as falsy. -/
theorem C7_counterexample :
    CustomerVehicle.needs_10000km_service vC7 300 = false ∧
    needs_10000km_service_claimed vC7 300 = true := by
  constructor <;> rfl

/-- C7 amended: for an eligible vehicle the source predicate is true iff one
of the three conditions holds with the odometer fields not only set but
nonzero (Python truthiness), condition (a) additionally requiring a nonzero
`current_odometer`; an ineligible vehicle always gets false. -/
theorem C7_needs_service_iff (v : CustomerVehicle) (today : Nat) :
    v.needs_10000km_service today = true ↔
      (v.is_eligible_for_10000km_service = true ∧
        ((∃ l, v.last_service_odometer = some l ∧ l ≠ 0 ∧
            v.current_odometer ≠ 0 ∧ v.current_odometer - l ≥ 10000) ∨
         (∃ k, v.next_service_due_km = some k ∧ k ≠ 0 ∧
            v.current_odometer ≥ k) ∨
         (∃ d, v.next_service_due_date = some d ∧ today ≥ d))) := by
  cases he : v.is_eligible_for_10000km_service <;>
    cases hl : v.last_service_odometer <;>
    cases hk : v.next_service_due_km <;>
    cases hd : v.next_service_due_date <;>
    simp [CustomerVehicle.needs_10000km_service, CustomerVehicle.truthyInt,
      he, hl, hk, hd]

/-- C1 evaluated against the faithful embedding.  The StateError half of the
claim is exact: on a status outside pending/confirmed/rescheduled the
`ValueError` is raised by the first statement of the method and the booking
is untouched (evaluated here on the completed booking, and the guard is
total: the last conjunct proves the call never returns without an error).
The success half is false of the program: on every eligible status (the
pending booking here) the call persists the transition — the returned row is
`scheduled` with both schedule fields set — and then raises `AttributeError`
from the schedule-confirmation e-mail, which reads `customer.first_name` on
the customer CharField outside its `try`; `schedule_service` therefore never
succeeds. -/
theorem C1_schedule_never_succeeds :
    (Booking.schedule_service bkCompleted 101 600 "staff" none 50 =
      (bkCompleted, some PyErr.stateError)) ∧
    Booking.can_be_scheduled bkPending = true ∧
    (Booking.schedule_service bkPending 101 600 "staff" none 50).2 =
      some PyErr.attributeError ∧
    (Booking.schedule_service bkPending 101 600 "staff" none 50).1.status =
      "scheduled" ∧
    Booking.is_scheduled
      (Booking.schedule_service bkPending 101 600 "staff" none 50).1 = true ∧
    (∀ (b : Booking) (d t : Nat) (u : String) (sc : Option String) (now : Nat),
      (Booking.schedule_service b d t u sc now).2.isSome = true) := by
  refine ⟨rfl, rfl, rfl, rfl, rfl, ?_⟩
  intro b d t u sc now
  by_cases h : b.can_be_scheduled = true
  · have hne : ¬ b.status = "scheduled" := by
      have hmem : b.status = "pending" ∨ b.status = "confirmed" ∨
          b.status = "rescheduled" := by
        simpa [Booking.can_be_scheduled] using h
      rcases hmem with hs | hs | hs <;> rw [hs] <;> decide
    cases sc <;>
      simp [Booking.schedule_service, Booking.save_effective, h, hne]
  · have hb : b.can_be_scheduled = false := by
      cases hcb : b.can_be_scheduled
      · rfl
      · exact absurd hcb h
    simp [Booking.schedule_service, hb]

/-- C4 counterexample: the booking reached by create → schedule → cancel has
both schedule fields set (so `is_scheduled` is true) while its status is
`cancelled`, because the cancel endpoint never clears `scheduled_date` and
`scheduled_time`; the claimed agreement of `is_scheduled` with
`status == scheduled` fails at this reachable state. -/
theorem C4_counterexample :
    Booking.is_scheduled bkC4_cancelled = true ∧
    bkC4_cancelled.status = "cancelled" ∧
    bkC4_cancelled.status ≠ "scheduled" := by
  refine ⟨rfl, rfl, by decide⟩

/-- C4 amended: `is_scheduled` is true iff both schedule fields are set
(this is its definition); a freshly created booking is pending and
unscheduled; a `schedule_service` call on an eligible booking persists
`status = scheduled` together with `is_scheduled` (the call then raises
AttributeError from the confirmation-e-mail step, after the transition is
durable); but `cancel` keeps the schedule fields (it preserves
`is_scheduled`) while setting `status = cancelled`, so the agreement with
`status == scheduled` is not preserved by every operation. -/
theorem C4_scheduled_invariant (b : Booking) :
    (Booking.is_scheduled b = true ↔
      (b.scheduled_date ≠ none ∧ b.scheduled_time ≠ none)) ∧
    (∀ i n c veh st pd pt odo,
      (Booking.create_booking i n c veh st pd pt odo).status = "pending" ∧
      Booking.is_scheduled (Booking.create_booking i n c veh st pd pt odo) =
        false) ∧
    (∀ d t u sc now, b.can_be_scheduled = true →
      ((Booking.schedule_service b d t u sc now).1.status = "scheduled" ∧
        Booking.is_scheduled (Booking.schedule_service b d t u sc now).1 =
          true)) ∧
    ((Booking.cancel b).2 = none →
      ((Booking.cancel b).1.status = "cancelled" ∧
        Booking.is_scheduled (Booking.cancel b).1 = Booking.is_scheduled b)) := by
  refine ⟨?_, ?_, ?_, ?_⟩
  · simp [Booking.is_scheduled, Option.isSome_iff_ne_none]
  · intro i n c veh st pd pt odo
    exact ⟨rfl, rfl⟩
  · intro d t u sc now h
    cases sc <;>
      simp [Booking.schedule_service, save_effective_fst,
        Booking.is_scheduled, h]
  · intro hok
    simp only [Booking.cancel] at hok ⊢
    split at hok
    · simp at hok
    · next hcond =>
        rw [if_neg hcond]
        simp only [Booking.save_effective]
        split
        · next hc1 => exact absurd hc1 (by simp)
        · split
          · next hc2 => exact absurd hc2.2.2 (by decide)
          · split
            · next hc3 => exact absurd hc3.2.2 (by decide)
            · exact ⟨rfl, rfl⟩

/-- C4 amended witness: the schedule and cancel transitions evaluated on the
concrete pending booking. -/
theorem C4_scheduled_invariant_witness :
    (Booking.can_be_scheduled bkPending = true ∧
      ((Booking.schedule_service bkPending 101 600 "staff" (some "Bole center")
          50).1.status = "scheduled" ∧
        Booking.is_scheduled (Booking.schedule_service bkPending 101 600
          "staff" (some "Bole center") 50).1 = true)) ∧
    ((Booking.cancel bkC4_sched).2 = none ∧
      ((Booking.cancel bkC4_sched).1.status = "cancelled" ∧
        Booking.is_scheduled (Booking.cancel bkC4_sched).1 =
          Booking.is_scheduled bkC4_sched)) :=
  ⟨⟨by decide, (C4_scheduled_invariant bkPending).2.2.1 101 600 "staff"
      (some "Bole center") 50 (by decide)⟩,
   ⟨by decide, (C4_scheduled_invariant bkC4_sched).2.2.2 (by decide)⟩⟩

/-- C5 counterexample: the request `reqC5` has `preferred_date = day 5`,
before today (day 10), yet the authenticated creation path accepts it —
`ServiceBookingCreateSerializer.validate` returns the data unchanged
because its only check is vehicle presence; the same request on the public
path is rejected.  So creation with a past date does not fail with
ValidationError on every path. -/
theorem C5_counterexample :
    reqC5.preferred_date = some 5 ∧ (5 : Nat) < 10 ∧
    create_booking_validate reqC5 = Except.ok reqC5 ∧
    public_booking_validate (fun _ => true) reqC5 10 =
      Except.error PyErr.validationError := by
  refine ⟨rfl, by decide, rfl, rfl⟩

/-- C5 amended: a past `preferred_date` is rejected with ValidationError
(and hence nothing persisted) on the public creation path, for every
request; the authenticated creation path validates only vehicle presence
and accepts a past `preferred_date`. -/
theorem C5_past_date_validation :
    (∀ (parsesYmd : String → Bool) (req : BookingRequest) (today d : Nat),
      req.preferred_date = some d → d < today →
      public_booking_validate parsesYmd req today =
        Except.error PyErr.validationError) ∧
    (∀ req : BookingRequest, req.vehicle ≠ none →
      create_booking_validate req = Except.ok req) := by
  constructor
  · intro parsesYmd req today d hdate hlt
    unfold public_booking_validate
    split
    · rfl
    · split
      · rfl
      · split
        · rfl
        · split
          · rfl
          · next hcond =>
              rw [hdate] at hcond
              simp [hlt] at hcond
  · intro req hveh
    unfold create_booking_validate
    rw [if_neg hveh]

/-- C5 amended witness: the concrete past-date request evaluated through both
validation paths. -/
theorem C5_past_date_validation_witness :
    (reqC5.preferred_date = some 5 ∧ (5 : Nat) < 10 ∧
      public_booking_validate (fun _ => true) reqC5 10 =
        Except.error PyErr.validationError) ∧
    (reqC5.vehicle ≠ none ∧ create_booking_validate reqC5 = Except.ok reqC5) :=
  ⟨⟨rfl, by decide,
    C5_past_date_validation.1 (fun _ => true) reqC5 10 5 rfl (by decide)⟩,
   ⟨by decide, C5_past_date_validation.2 reqC5 (by decide)⟩⟩

/-- C9: for a date not before today the availability view returns exactly the
hours of the fixed 09:00-17:00 business window whose slot time is not the
`scheduled_time` of any booking on that date with status confirmed,
scheduled or in_progress; for a past date it returns the empty slot list. -/
theorem C9_availability (bookings : List Booking) (d today : Nat) :
    (d < today → service_availability bookings d today = []) ∧
    (today ≤ d → ∀ h : Nat,
      h ∈ service_availability bookings d today ↔
        (h ∈ business_hours ∧
          ¬ ∃ b ∈ bookings, b.scheduled_date = some d ∧
            (b.status = "confirmed" ∨ b.status = "scheduled" ∨
              b.status = "in_progress") ∧
            b.scheduled_time = some (60 * h))) := by
  constructor
  · intro hpast
    simp [service_availability, hpast]
  · intro hle h
    have hnl : ¬ d < today := Nat.not_lt.mpr hle
    simp only [service_availability, if_neg hnl, List.mem_filter,
      slot_booked, List.any_eq_true, decide_eq_true_eq]
    constructor
    · rintro ⟨hmem, hnb⟩
      refine ⟨hmem, ?_⟩
      rintro ⟨b, hb, hd, hst, ht⟩
      apply hnb
      simp only [Bool.and_eq_true, decide_eq_true_eq]
      exact ⟨b, hb, ⟨hd, by simp [hst]⟩, ht⟩
    · rintro ⟨hmem, hnb⟩
      refine ⟨hmem, ?_⟩
      simp only [Bool.and_eq_true, decide_eq_true_eq]
      rintro ⟨b, hb, ⟨hd, hst⟩, ht⟩
      apply hnb
      refine ⟨b, hb, hd, ?_, ht⟩
      simpa using hst

/-- C9 witness: the availability query evaluated on a concrete booking set,
both for a past date and a future date. -/
theorem C9_availability_witness :
    ((100 : Nat) < 150 ∧ service_availability [bkC9] 100 150 = []) ∧
    ((150 : Nat) ≤ 200 ∧
      (10 ∈ service_availability [bkC9] 200 150 ↔
        (10 ∈ business_hours ∧
          ¬ ∃ b ∈ [bkC9], b.scheduled_date = some 200 ∧
            (b.status = "confirmed" ∨ b.status = "scheduled" ∨
              b.status = "in_progress") ∧
            b.scheduled_time = some (60 * 10)))) :=
  ⟨⟨by decide, (C9_availability [bkC9] 100 150).1 (by decide)⟩,
   ⟨by decide, (C9_availability [bkC9] 200 150).2 (by decide) 10⟩⟩

/-- C2 evaluated at the claimed failing input: a NETA-warranty booking for a
vehicle whose warranty runs to `today + 10` is persisted with
`warranty_covered = false` and `priority = normal`, because the second
`save` definition (models.py:1384) shadows the first (models.py:1067) and
never calls `_check_neta_warranty_eligibility`; had the eligibility routine
run over the `CustomerVehicle` snapshot it would have produced
`warranty_covered = true` and `priority = warranty`, which is what the claim
(and the dead code) describe. -/
theorem C2_neta_warranty_shadowed_save :
    bkC2.service_type = "neta_warranty" ∧
    cvC2.is_neta_car = true ∧
    CustomerVehicle.is_warranty_valid cvC2 100 = true ∧
    CustomerVehicle.days_until_warranty_expires cvC2 100 = 10 ∧
    bkC2.warranty_covered = false ∧
    bkC2.priority = "normal" ∧
    (Booking.check_neta_warranty_eligibility bkC2 cvC2 100).warranty_covered
      = true ∧
    (Booking.check_neta_warranty_eligibility bkC2 cvC2 100).priority
      = "warranty" := by
  refine ⟨rfl, rfl, rfl, by decide, rfl, rfl, by decide, by decide⟩

/-- C3 evaluated at the claimed input: completing the concrete scheduled
booking passes the status guard but raises AttributeError at the cascade
step, because the booking's `vehicle` foreign key is an `ElectricCar`,
which defines no `update_service_info`; the cascade the claim describes is
the one `CustomerVehicle.update_service_info` would perform
(`last_service_odometer = 15000`, `next_service_due_km = 25000`,
`next_service_due_date = today + 365`, `last_service_date = today`),
but it is never reached and nothing is persisted. -/
theorem C3_complete_cascade_attribute_error :
    (["scheduled", "in_progress"].contains bkC3.status) = true ∧
    (Booking.complete_service bkC3 "Tesfaye" 15000 "coolant replaced"
      none none 100).2 = some PyErr.attributeError ∧
    (CustomerVehicle.update_service_info cvC3 "10,000 KM Service" 15000
      100).last_service_odometer = some 15000 ∧
    (CustomerVehicle.update_service_info cvC3 "10,000 KM Service" 15000
      100).next_service_due_km = some 25000 ∧
    (CustomerVehicle.update_service_info cvC3 "10,000 KM Service" 15000
      100).next_service_due_date = some 465 ∧
    (CustomerVehicle.update_service_info cvC3 "10,000 KM Service" 15000
      100).last_service_date = some 100 := by
  refine ⟨by decide, rfl, rfl, by decide, rfl, rfl⟩

theorem send_today_raises (dispatch : Nat → Except String Unit)
    (b : Booking) :
    send_today_service_plain_email dispatch b =
      Except.error PyErr.attributeError := rfl

theorem send_tomorrow_raises (dispatch : Nat → Except String Unit)
    (b : Booking) :
    send_tomorrow_service_plain_email dispatch b =
      Except.error PyErr.attributeError := rfl

theorem today_step_fst (dispatch : Nat → Except String Unit)
    (st : List Booking × List Nat) (i : Nat) :
    (today_step dispatch st i).1 = st.1 := by
  unfold today_step
  split
  · rfl
  · split
    · rfl
    · rfl

theorem tomorrow_step_fst (dispatch : Nat → Except String Unit)
    (st : List Booking × List Nat) (i : Nat) :
    (tomorrow_step dispatch st i).1 = st.1 := by
  unfold tomorrow_step
  split
  · rfl
  · split
    · rfl
    · rfl

theorem foldl_today_fst (dispatch : Nat → Except String Unit)
    (ids : List Nat) (st : List Booking × List Nat) :
    (ids.foldl (today_step dispatch) st).1 = st.1 := by
  induction ids generalizing st with
  | nil => rfl
  | cons i ids ih =>
      exact (ih (today_step dispatch st i)).trans (today_step_fst dispatch st i)

theorem foldl_tomorrow_fst (dispatch : Nat → Except String Unit)
    (ids : List Nat) (st : List Booking × List Nat) :
    (ids.foldl (tomorrow_step dispatch) st).1 = st.1 := by
  induction ids generalizing st with
  | nil => rfl
  | cons i ids ih =>
      exact (ih (tomorrow_step dispatch st i)).trans
        (tomorrow_step_fst dispatch st i)

theorem today_pass_fst (dispatch : Nat → Except String Unit)
    (scheds : List ScheduleService) (st : List Booking × List Nat) :
    (today_pass dispatch scheds st).1 = st.1 := by
  induction scheds generalizing st with
  | nil => rfl
  | cons s scheds ih =>
      exact (ih (s.bookings.foldl (today_step dispatch) st)).trans
        (foldl_today_fst dispatch s.bookings st)

theorem tomorrow_pass_fst (dispatch : Nat → Except String Unit)
    (scheds : List ScheduleService) (st : List Booking × List Nat) :
    (tomorrow_pass dispatch scheds st).1 = st.1 := by
  induction scheds generalizing st with
  | nil => rfl
  | cons s scheds ih =>
      exact (ih (s.bookings.foldl (tomorrow_step dispatch) st)).trans
        (foldl_tomorrow_fst dispatch s.bookings st)

theorem sweep_unchanged (dispatch : Nat → Except String Unit)
    (schedules : List ScheduleService) (bookings : List Booking)
    (today : Nat) :
    (send_daily_service_reminders dispatch schedules bookings today).1 =
      bookings := by
  simp only [send_daily_service_reminders]
  rw [tomorrow_pass_fst]
  exact today_pass_fst dispatch _ (bookings, [])

theorem sweep_twice (dispatch : Nat → Except String Unit)
    (schedules : List ScheduleService) (bookings : List Booking)
    (today : Nat) :
    send_daily_service_reminders dispatch schedules
        (send_daily_service_reminders dispatch schedules bookings today).1
        today =
      send_daily_service_reminders dispatch schedules bookings today := by
  rw [sweep_unchanged]

/-- C8 evaluated against the faithful embedding.  Both send helpers raise
AttributeError while formatting the message (the vehicle foreign key is an
`ElectricCar`, which has no `manufacturer_name`), so inside the sweep the
per-booking except always fires and the `reminder_sent`/`follow_up_sent`
assignments (signals.py:538-539, 551-552) are never executed: no run of the
sweep changes any booking state (also in iterated form), every run returns
the identical result — re-attempting the same bookings — and the guard flags
never enforce anything.  The final conjunct evaluates the failing input: the
first run attempts the due booking, yet its row still has
`reminder_sent = false`. -/
theorem C8_guard_flags_never_set :
    (∀ (dispatch : Nat → Except String Unit) (b : Booking),
      send_today_service_plain_email dispatch b =
        Except.error PyErr.attributeError ∧
      send_tomorrow_service_plain_email dispatch b =
        Except.error PyErr.attributeError) ∧
    (∀ (dispatch : Nat → Except String Unit)
        (schedules : List ScheduleService) (bookings : List Booking)
        (today : Nat),
      (send_daily_service_reminders dispatch schedules bookings today).1 =
        bookings) ∧
    (∀ (dispatch : Nat → Except String Unit)
        (schedules : List ScheduleService) (bookings : List Booking)
        (today n : Nat),
      (sweep_state dispatch schedules today)^[n] bookings = bookings) ∧
    (∀ (dispatch : Nat → Except String Unit)
        (schedules : List ScheduleService) (bookings : List Booking)
        (today : Nat),
      send_daily_service_reminders dispatch schedules
          (send_daily_service_reminders dispatch schedules bookings today).1
          today =
        send_daily_service_reminders dispatch schedules bookings today) ∧
    (21 ∈ (send_daily_service_reminders failing_dispatch [schedC8] [bkC8]
        100).2.1 ∧
      find_booking (send_daily_service_reminders failing_dispatch [schedC8]
        [bkC8] 100).1 21 = some bkC8 ∧
      bkC8.reminder_sent = false ∧ bkC8.status = "scheduled") := by
  refine ⟨fun dispatch b => ⟨rfl, rfl⟩, ?_, ?_, ?_,
    by decide, rfl, rfl, rfl⟩
  · exact fun dispatch schedules bookings today =>
      sweep_unchanged dispatch schedules bookings today
  · intro dispatch schedules bookings today n
    induction n with
    | zero => rfl
    | succ n ih =>
        rw [Function.iterate_succ_apply]
        have hone : sweep_state dispatch schedules today bookings =
            bookings := sweep_unchanged dispatch schedules bookings today
        rw [hone, ih]
  · exact fun dispatch schedules bookings today =>
      sweep_twice dispatch schedules bookings today

/-- C10 counterexample: at the concrete due booking the send helper does not
return normally — it raises AttributeError before the dispatch `try`, for the
failing dispatcher too — and after the first sweep run the booking row still
has `reminder_sent = false` (the sweep did NOT set the flag), while the
second run attempts the very same booking again: it IS retried. -/
theorem C10_counterexample :
    send_today_service_plain_email failing_dispatch bkC8 =
      Except.error PyErr.attributeError ∧
    find_booking (send_daily_service_reminders failing_dispatch [schedC8]
      [bkC8] 100).1 21 = some bkC8 ∧
    bkC8.reminder_sent = false ∧
    21 ∈ (send_daily_service_reminders failing_dispatch [schedC8] [bkC8]
      100).2.1 ∧
    21 ∈ (send_daily_service_reminders failing_dispatch [schedC8]
      (send_daily_service_reminders failing_dispatch [schedC8] [bkC8]
        100).1 100).2.1 := by
  refine ⟨rfl, rfl, rfl, by decide, by decide⟩

/-- C10 amended: each send helper raises AttributeError while building its
message body, before the `try` that wraps the external dispatch, for every
dispatcher outcome; the error escapes the helper into the sweep loop, whose
per-booking except skips the guard-flag assignment, so every booking row is
exactly as before the run (no `reminder_sent`/`follow_up_sent` is ever set)
and a later run reproduces the identical attempts — a booking whose reminder
e-mail failed is retried by every later sweep run. -/
theorem C10_helpers_raise_flags_unset :
    (∀ (dispatch : Nat → Except String Unit) (b : Booking),
      send_today_service_plain_email dispatch b =
        Except.error PyErr.attributeError ∧
      send_tomorrow_service_plain_email dispatch b =
        Except.error PyErr.attributeError) ∧
    (∀ (dispatch : Nat → Except String Unit)
        (schedules : List ScheduleService) (bookings : List Booking)
        (today i : Nat),
      find_booking (send_daily_service_reminders dispatch schedules bookings
        today).1 i = find_booking bookings i) ∧
    (∀ (dispatch : Nat → Except String Unit)
        (schedules : List ScheduleService) (bookings : List Booking)
        (today : Nat),
      send_daily_service_reminders dispatch schedules
          (send_daily_service_reminders dispatch schedules bookings today).1
          today =
        send_daily_service_reminders dispatch schedules bookings today) := by
  refine ⟨fun dispatch b => ⟨rfl, rfl⟩, ?_, ?_⟩
  · intro dispatch schedules bookings today i
    rw [sweep_unchanged]
  · exact fun dispatch schedules bookings today =>
      sweep_twice dispatch schedules bookings today

end CarSelling
